import Mathlib

/-!
Verification of the synthetic-data generators of `plot_macro_indicators.py`.

The script builds mock macroeconomic time series with two generators:
`generate_cyclical_data` (base + sinusoidal cycle + linear trend + seeded
noise) and `generate_correlated_data` (a series correlated with a reference
series at a target coefficient).  We embed both in Lean over exact real
arithmetic.

The numpy global random source is modelled by explicit state passing: a
`RandState` records the current seed and the position reached in the
underlying standard-normal stream of that seed.  The streams themselves are
abstracted as a parameter `gauss : ℕ → ℕ → ℝ`, where `gauss s i` is the
i-th standard-normal draw produced after seeding with `s`; `np.random.seed`
resets the position to zero and `np.random.randn n` reads the next `n`
entries of the current stream and advances the position.  This captures
exactly what the claims use: seeding fixes the whole sequence of draws.
-/

namespace PlotMacro

/-- State of the numpy global random source: the seed last installed and how
many draws have been consumed since seeding. -/
structure RandState where
  seed : ℕ
  pos : ℕ

/-- Model of `np.random.seed(s)`: install seed `s` and rewind the stream. -/
def np_random_seed (s : ℕ) (_ : RandState) : RandState := ⟨s, 0⟩

/-- Model of `np.random.randn(n)`: read the next `n` standard-normal draws of
the current stream and advance the position. -/
def np_random_randn (gauss : ℕ → ℕ → ℝ) (st : RandState) (n : ℕ) :
    List ℝ × RandState :=
  ((List.range n).map (fun i => gauss st.seed (st.pos + i)), ⟨st.seed, st.pos + n⟩)

/-- Model of `np.mean` (arithmetic mean; division by zero on the empty list
follows the Lean convention). -/
noncomputable def np_mean (xs : List ℝ) : ℝ := xs.sum / xs.length

/-- Model of `np.std` (population standard deviation, `ddof = 0`). -/
noncomputable def np_std (xs : List ℝ) : ℝ :=
  Real.sqrt (((xs.map (fun x => (x - np_mean xs) ^ 2)).sum) / xs.length)

/-- Model of `np.linspace a b n`: `n` evenly spaced samples from `a` to `b`,
endpoints included.  For `n = 1` numpy returns `[a]`, which the formula also
yields under the division-by-zero convention. -/
noncomputable def np_linspace (a b : ℝ) (n : ℕ) : List ℝ :=
  (List.range n).map (fun (i : ℕ) => a + (b - a) * (i : ℝ) / ((n : ℝ) - 1))

/-- Embedding of `generate_cyclical_data(dates, base_value, amplitude,
cycle_years, noise_level, phase_shift)`.  Dates are day ordinals (the code
only uses day differences from the first date).  Returns the produced series
together with the random state after the call. -/
noncomputable def generate_cyclical_data (gauss : ℕ → ℕ → ℝ) (st : RandState)
    (dates : List ℤ) (base_value amplitude cycle_years noise_level phase_shift : ℝ) :
    List ℝ × RandState :=
  let start_date := dates.headI
  let years := dates.map (fun d => (((d - start_date : ℤ) : ℝ)) / 365.25)
  let cycle_component := years.map (fun y =>
    amplitude * Real.sin (2 * Real.pi * y / cycle_years + phase_shift))
  let trend := np_linspace (-1) 1 dates.length
  let st1 := np_random_seed 42 st
  let p := np_random_randn gauss st1 dates.length
  let noise := p.1.map (fun x => x * noise_level)
  let values := List.zipWith (fun a b => a + b)
    (List.zipWith (fun c t => base_value + c + t) cycle_component trend) noise
  (values, p.2)

/-- Embedding of `generate_correlated_data(reference_data, correlation,
base_shift, amplitude_ratio)`.  Returns the produced series together with the
random state after the call. -/
noncomputable def generate_correlated_data (gauss : ℕ → ℕ → ℝ) (st : RandState)
    (reference_data : List ℝ) (correlation base_shift amplitude_ratio : ℝ) :
    List ℝ × RandState :=
  let st1 := np_random_seed 123 st
  let ref_normalized := reference_data.map
    (fun x => (x - np_mean reference_data) / np_std reference_data)
  let p := np_random_randn gauss st1 reference_data.length
  let independent_noise := p.1
  let correlated_component := ref_normalized.map (fun x => correlation * x)
  let independent_component := independent_noise.map
    (fun x => Real.sqrt (1 - correlation ^ 2) * x)
  let combined := List.zipWith (fun a b => a + b)
    correlated_component independent_component
  let result := combined.map (fun x =>
    x * np_std reference_data * amplitude_ratio + np_mean reference_data + base_shift)
  (result, p.2)

/-- The linspace model has the requested number of samples. -/
theorem length_np_linspace (a b : ℝ) (n : ℕ) : (np_linspace a b n).length = n := by
  rw [np_linspace, List.length_map, List.length_range]

/-- Sample `i` of the linspace model. -/
theorem getElem_np_linspace (a b : ℝ) (n i : ℕ) (h : i < (np_linspace a b n).length) :
    (np_linspace a b n)[i] = a + (b - a) * i / ((n : ℝ) - 1) := by
  have hi : i < n := by
    have := h
    rwa [length_np_linspace] at this
  simp only [np_linspace, List.getElem_map, List.getElem_range]

/-- The cyclical generator returns as many samples as there are dates. -/
theorem length_generate_cyclical_data (gauss : ℕ → ℕ → ℝ) (st : RandState)
    (dates : List ℤ) (b a c s p : ℝ) :
    ((generate_cyclical_data gauss st dates b a c s p).1).length = dates.length := by
  rw [generate_cyclical_data]
  simp only [np_random_randn, List.length_zipWith, List.length_map, List.length_range,
    length_np_linspace]
  omega

/-- The correlated generator returns as many samples as the reference series. -/
theorem length_generate_correlated_data (gauss : ℕ → ℕ → ℝ) (st : RandState)
    (r : List ℝ) (c bs ar : ℝ) :
    ((generate_correlated_data gauss st r c bs ar).1).length = r.length := by
  rw [generate_correlated_data]
  simp only [np_random_randn, List.length_zipWith, List.length_map, List.length_range]
  omega

/-- Closed form of sample `i` of the cyclical generator: base plus sinusoidal
cycle plus linspace trend plus scaled seed-42 noise. -/
theorem getElem_generate_cyclical_data (gauss : ℕ → ℕ → ℝ) (st : RandState)
    (dates : List ℤ) (b a c s p : ℝ) (i : ℕ)
    (h : i < ((generate_cyclical_data gauss st dates b a c s p).1).length) :
    ((generate_cyclical_data gauss st dates b a c s p).1)[i] =
      b + a * Real.sin (2 * Real.pi *
          (((dates.getD i 0 - dates.headI : ℤ) : ℝ) / 365.25) / c + p)
        + (-1 + 2 * (i : ℝ) / ((dates.length : ℝ) - 1)) + gauss 42 i * s := by
  have hi : i < dates.length := by
    rwa [length_generate_cyclical_data] at h
  rw [List.getD_eq_getElem dates 0 hi]
  simp only [generate_cyclical_data, np_random_seed, np_random_randn,
    List.getElem_zipWith, List.getElem_map, List.getElem_range, getElem_np_linspace]
  norm_num

/-- Closed form of sample `i` of the correlated generator: the four-step
normalize, mix with seed-123 noise, and rescale pipeline. -/
theorem getElem_generate_correlated_data (gauss : ℕ → ℕ → ℝ) (st : RandState)
    (r : List ℝ) (c bs ar : ℝ) (i : ℕ)
    (h : i < ((generate_correlated_data gauss st r c bs ar).1).length) :
    ((generate_correlated_data gauss st r c bs ar).1)[i] =
      (c * ((r.getD i 0 - np_mean r) / np_std r)
          + Real.sqrt (1 - c ^ 2) * gauss 123 i) * np_std r * ar
        + np_mean r + bs := by
  have hi : i < r.length := by
    rwa [length_generate_correlated_data] at h
  rw [List.getD_eq_getElem r 0 hi]
  simp only [generate_correlated_data, np_random_seed, np_random_randn,
    List.getElem_zipWith, List.getElem_map, List.getElem_range]
  norm_num

/-- A concrete standard-normal stream (identically zero) used to instantiate
the abstract `gauss` parameter on concrete inputs. -/
noncomputable def gauss0 : ℕ → ℕ → ℝ := fun _ _ => 0

/-- A concrete initial random state. -/
def st0 : RandState := ⟨0, 0⟩

/-- Mean of the concrete reference series `[0, 2]`. -/
theorem np_mean_pair : np_mean [0, 2] = 1 := by
  simp [np_mean]

/-- Standard deviation of the concrete reference series `[0, 2]`. -/
theorem np_std_pair : np_std [0, 2] = 1 := by
  rw [np_std, np_mean_pair]
  simp only [List.map_cons, List.map_nil, List.sum_cons, List.sum_nil,
    List.length_cons, List.length_nil]
  norm_num

/-- Mean of the concrete reference series `[2, 0]`. -/
theorem np_mean_pair_rev : np_mean [2, 0] = 1 := by
  simp [np_mean]

/-- Standard deviation of the concrete reference series `[2, 0]`. -/
theorem np_std_pair_rev : np_std [2, 0] = 1 := by
  rw [np_std, np_mean_pair_rev]
  simp only [List.map_cons, List.map_nil, List.sum_cons, List.sum_nil,
    List.length_cons, List.length_nil]
  norm_num

/-- Standard deviation of the constant series `[5, 5, 5]` is zero. -/
theorem np_std_const : np_std [5, 5, 5] = 0 := by
  rw [np_std]
  have hm : np_mean [5, 5, 5] = 5 := by
    simp [np_mean]
    norm_num
  rw [hm]
  simp only [List.map_cons, List.map_nil, List.sum_cons, List.sum_nil,
    List.length_cons, List.length_nil]
  norm_num

/-- Claim C1: for every date axis and numeric parameters, sample `i` of the
cyclical generator equals `B + A * sin(2 * pi * years_i / C + phi) + trend(i)
+ noise_i`, where `years_i` is the day count from the first date divided by
365.25, `trend` is the linspace ramp from -1 to +1 over `N` points, and
`noise_i` is the i-th seed-42 standard-normal draw scaled by the noise
level. -/
theorem cyclical_sample_formula (gauss : ℕ → ℕ → ℝ) (st : RandState)
    (dates : List ℤ) (b a c s p : ℝ) (i : ℕ) (hi : i < dates.length) :
    ((generate_cyclical_data gauss st dates b a c s p).1).getD i 0 =
      b + a * Real.sin (2 * Real.pi *
          (((dates.getD i 0 - dates.headI : ℤ) : ℝ) / 365.25) / c + p)
        + (-1 + 2 * (i : ℝ) / ((dates.length : ℝ) - 1)) + gauss 42 i * s := by
  have h : i < ((generate_cyclical_data gauss st dates b a c s p).1).length := by
    rwa [length_generate_cyclical_data]
  rw [List.getD_eq_getElem _ 0 h, getElem_generate_cyclical_data]

/-- Witness for C1 at the concrete axis `[0, 31]`, index 1. -/
theorem cyclical_sample_formula_witness :
    1 < ([0, 31] : List ℤ).length ∧
    ((generate_cyclical_data gauss0 st0 [0, 31] 9 3 7 1 0).1).getD 1 0 =
      9 + 3 * Real.sin (2 * Real.pi *
          (((([0, 31] : List ℤ).getD 1 0 - ([0, 31] : List ℤ).headI : ℤ) : ℝ) / 365.25) / 7 + 0)
        + (-1 + 2 * ((1 : ℕ) : ℝ) / ((([0, 31] : List ℤ).length : ℝ) - 1))
        + gauss0 42 1 * 1 :=
  ⟨by decide, cyclical_sample_formula gauss0 st0 [0, 31] 9 3 7 1 0 1 (by decide)⟩

/-- Claim C2: for every reference series with positive standard deviation,
the correlated generator computes exactly the four-step algorithm: normalize,
draw seed-123 standard normals, mix with weights `rho` and
`sqrt(1 - rho ^ 2)`, and rescale by the reference deviation, amplitude ratio,
mean and base shift, elementwise at every index. -/
theorem correlated_four_step_formula (gauss : ℕ → ℕ → ℝ) (st : RandState)
    (r : List ℝ) (c bs ar : ℝ) (i : ℕ)
    (hstd : 0 < np_std r) (hi : i < r.length) :
    ((generate_correlated_data gauss st r c bs ar).1).getD i 0 =
      (c * ((r.getD i 0 - np_mean r) / np_std r)
          + Real.sqrt (1 - c ^ 2) * gauss 123 i) * np_std r * ar
        + np_mean r + bs := by
  have h : i < ((generate_correlated_data gauss st r c bs ar).1).length := by
    rwa [length_generate_correlated_data]
  rw [List.getD_eq_getElem _ 0 h, getElem_generate_correlated_data]

/-- Witness for C2 at the concrete reference `[0, 2]`, index 0. -/
theorem correlated_four_step_formula_witness :
    0 < np_std [0, 2] ∧ 0 < ([0, 2] : List ℝ).length ∧
    ((generate_correlated_data gauss0 st0 [0, 2] 0 2 3).1).getD 0 0 =
      (0 * ((([0, 2] : List ℝ).getD 0 0 - np_mean [0, 2]) / np_std [0, 2])
          + Real.sqrt (1 - 0 ^ 2) * gauss0 123 0) * np_std [0, 2] * 3
        + np_mean [0, 2] + 2 :=
  ⟨by rw [np_std_pair]; norm_num, by decide,
    correlated_four_step_formula gauss0 st0 [0, 2] 0 2 3 0
      (by rw [np_std_pair]; norm_num) (by decide)⟩

/-- Claim C5: both generators are deterministic in the incoming random state:
because each call first resets the source to a fixed seed (42 for the
cyclical generator, 123 for the correlated one), two calls with identical
inputs but arbitrary incoming states return the same series. -/
theorem generators_deterministic (gauss : ℕ → ℕ → ℝ) (st1 st2 : RandState)
    (dates : List ℤ) (b a c s p : ℝ) (r : List ℝ) (rho bs ar : ℝ) :
    (generate_cyclical_data gauss st1 dates b a c s p).1 =
      (generate_cyclical_data gauss st2 dates b a c s p).1 ∧
    (generate_correlated_data gauss st1 r rho bs ar).1 =
      (generate_correlated_data gauss st2 r rho bs ar).1 :=
  ⟨rfl, rfl⟩

/-- Claim C6: every series produced by either generator has the length of its
date axis: the cyclical generator returns one sample per (nonempty) axis
entry, and the correlated generator one sample per reference entry. -/
theorem series_length_matches_axis (gauss : ℕ → ℕ → ℝ) (st : RandState)
    (dates : List ℤ) (b a c s p : ℝ) (r : List ℝ) (rho bs ar : ℝ)
    (hdates : 0 < dates.length) :
    ((generate_cyclical_data gauss st dates b a c s p).1).length = dates.length ∧
    ((generate_correlated_data gauss st r rho bs ar).1).length = r.length :=
  ⟨length_generate_cyclical_data gauss st dates b a c s p,
    length_generate_correlated_data gauss st r rho bs ar⟩

/-- Witness for C6 at the concrete axis `[0]` and reference `[1]`. -/
theorem series_length_matches_axis_witness :
    0 < ([0] : List ℤ).length ∧
    (((generate_cyclical_data gauss0 st0 [0] 1 1 1 1 1).1).length
        = ([0] : List ℤ).length ∧
      ((generate_correlated_data gauss0 st0 [1] 1 1 1).1).length
        = ([1] : List ℝ).length) :=
  ⟨by decide, series_length_matches_axis gauss0 st0 [0] 1 1 1 1 1 [1] 1 1 1 (by decide)⟩

/-- Claim C3, counterexample: on the constant reference `[5, 5, 5]` (whose
standard deviation is zero) the correlated generator does not fail: the code
has no error path at all (numpy division by zero warns and propagates, it
does not raise, and no DegenerateInputError exists anywhere in the script),
so the call returns a TimeSeries of length 3 instead of failing. -/
theorem correlated_constant_ref_counterexample :
    np_std [5, 5, 5] = 0 ∧
    ((generate_correlated_data gauss0 st0 [5, 5, 5] 0.85 0 1).1).length = 3 :=
  ⟨np_std_const, by rw [length_generate_correlated_data]; rfl⟩

/-- Claim C3 (amended): on a degenerate reference series (standard deviation
zero) the correlated generator does not raise; it still returns a series of
the reference length (its values are degenerate: NaN under IEEE arithmetic,
the zero-division convention values in exact arithmetic). -/
theorem correlated_constant_ref_no_error (gauss : ℕ → ℕ → ℝ) (st : RandState)
    (r : List ℝ) (c bs ar : ℝ) (hstd : np_std r = 0) :
    ((generate_correlated_data gauss st r c bs ar).1).length = r.length :=
  length_generate_correlated_data gauss st r c bs ar

/-- Witness for the amended C3 at the constant reference `[5, 5, 5]`. -/
theorem correlated_constant_ref_no_error_witness :
    np_std [5, 5, 5] = 0 ∧
    ((generate_correlated_data gauss0 st0 [5, 5, 5] (1 / 2) 1 1).1).length
      = ([5, 5, 5] : List ℝ).length :=
  ⟨np_std_const,
    correlated_constant_ref_no_error gauss0 st0 [5, 5, 5] (1 / 2) 1 1 np_std_const⟩

/-- Claim C4: with correlation 1 the noise weight `sqrt(1 - 1 ^ 2)` vanishes,
so the correlated generator returns an affine transform of the reference:
sample `i` equals `amplitudeRatio * (R_i - mean R) + mean R + baseShift`. -/
theorem correlated_rho_one_affine (gauss : ℕ → ℕ → ℝ) (st : RandState)
    (r : List ℝ) (bs ar : ℝ) (i : ℕ)
    (hstd : 0 < np_std r) (hi : i < r.length) :
    ((generate_correlated_data gauss st r 1 bs ar).1).getD i 0 =
      ar * (r.getD i 0 - np_mean r) + np_mean r + bs := by
  have h : i < ((generate_correlated_data gauss st r 1 bs ar).1).length := by
    rwa [length_generate_correlated_data]
  rw [List.getD_eq_getElem _ 0 h, getElem_generate_correlated_data]
  have hz : Real.sqrt (1 - (1 : ℝ) ^ 2) = 0 := by norm_num
  rw [hz]
  have hs : np_std r ≠ 0 := ne_of_gt hstd
  field_simp
  ring

/-- Witness for C4 at the concrete reference `[0, 2]`, index 1. -/
theorem correlated_rho_one_affine_witness :
    0 < np_std [0, 2] ∧ 1 < ([0, 2] : List ℝ).length ∧
    ((generate_correlated_data gauss0 st0 [0, 2] 1 2 3).1).getD 1 0 =
      3 * (([0, 2] : List ℝ).getD 1 0 - np_mean [0, 2]) + np_mean [0, 2] + 2 :=
  ⟨by rw [np_std_pair]; norm_num, by decide,
    correlated_rho_one_affine gauss0 st0 [0, 2] 2 3 1
      (by rw [np_std_pair]; norm_num) (by decide)⟩

/-- Claim C7: the per-call seed reset makes the noise shared across cyclical
generator calls: for two calls on axes of equal length and nonzero noise
scales, removing base, cycle and trend and dividing by the respective scale
recovers the same seed-42 standard-normal draw at every index. -/
theorem cyclical_noise_shared_across_calls (gauss : ℕ → ℕ → ℝ)
    (st1 st2 : RandState) (dates1 dates2 : List ℤ)
    (b1 a1 c1 s1 p1 b2 a2 c2 s2 p2 : ℝ) (i : ℕ)
    (hlen : dates1.length = dates2.length) (hi : i < dates1.length)
    (hs1 : s1 ≠ 0) (hs2 : s2 ≠ 0) :
    (((generate_cyclical_data gauss st1 dates1 b1 a1 c1 s1 p1).1).getD i 0
        - b1 - a1 * Real.sin (2 * Real.pi *
            (((dates1.getD i 0 - dates1.headI : ℤ) : ℝ) / 365.25) / c1 + p1)
        - (-1 + 2 * (i : ℝ) / ((dates1.length : ℝ) - 1))) / s1 = gauss 42 i ∧
    (((generate_cyclical_data gauss st2 dates2 b2 a2 c2 s2 p2).1).getD i 0
        - b2 - a2 * Real.sin (2 * Real.pi *
            (((dates2.getD i 0 - dates2.headI : ℤ) : ℝ) / 365.25) / c2 + p2)
        - (-1 + 2 * (i : ℝ) / ((dates2.length : ℝ) - 1))) / s2 = gauss 42 i := by
  have hi2 : i < dates2.length := hlen ▸ hi
  have h1 : i < ((generate_cyclical_data gauss st1 dates1 b1 a1 c1 s1 p1).1).length := by
    rwa [length_generate_cyclical_data]
  have h2 : i < ((generate_cyclical_data gauss st2 dates2 b2 a2 c2 s2 p2).1).length := by
    rwa [length_generate_cyclical_data]
  constructor
  · rw [List.getD_eq_getElem _ 0 h1, getElem_generate_cyclical_data]
    field_simp
    ring
  · rw [List.getD_eq_getElem _ 0 h2, getElem_generate_cyclical_data]
    field_simp
    ring

/-- Witness for C7 on two concrete calls over the axis `[0, 31]`, index 0,
with noise scales 1 and 2. -/
theorem cyclical_noise_shared_across_calls_witness :
    ([0, 31] : List ℤ).length = ([0, 31] : List ℤ).length ∧
    0 < ([0, 31] : List ℤ).length ∧ (1 : ℝ) ≠ 0 ∧ (2 : ℝ) ≠ 0 ∧
    ((((generate_cyclical_data gauss0 st0 [0, 31] 9 3 7 1 0).1).getD 0 0
        - 9 - 3 * Real.sin (2 * Real.pi *
            (((([0, 31] : List ℤ).getD 0 0 - ([0, 31] : List ℤ).headI : ℤ) : ℝ) / 365.25) / 7 + 0)
        - (-1 + 2 * ((0 : ℕ) : ℝ) / ((([0, 31] : List ℤ).length : ℝ) - 1))) / 1
        = gauss0 42 0 ∧
      (((generate_cyclical_data gauss0 st0 [0, 31] 11 4 6 2 1).1).getD 0 0
        - 11 - 4 * Real.sin (2 * Real.pi *
            (((([0, 31] : List ℤ).getD 0 0 - ([0, 31] : List ℤ).headI : ℤ) : ℝ) / 365.25) / 6 + 1)
        - (-1 + 2 * ((0 : ℕ) : ℝ) / ((([0, 31] : List ℤ).length : ℝ) - 1))) / 2
        = gauss0 42 0) :=
  ⟨rfl, by decide, one_ne_zero, two_ne_zero,
    cyclical_noise_shared_across_calls gauss0 st0 st0 [0, 31] [0, 31]
      9 3 7 1 0 11 4 6 2 1 0 rfl (by decide) one_ne_zero two_ne_zero⟩

/-- Claim C8: with correlation 0 the correlated generator depends on the
reference series only through its length, mean and standard deviation: two
references of equal length, mean and (positive) deviation produce elementwise
equal outputs for identical base shift and amplitude ratio. -/
theorem correlated_rho_zero_shape_independent (gauss : ℕ → ℕ → ℝ)
    (st1 st2 : RandState) (r1 r2 : List ℝ) (bs ar : ℝ)
    (hlen : r1.length = r2.length) (hmean : np_mean r1 = np_mean r2)
    (hstdeq : np_std r1 = np_std r2) (hstd : 0 < np_std r1) :
    (generate_correlated_data gauss st1 r1 0 bs ar).1 =
      (generate_correlated_data gauss st2 r2 0 bs ar).1 := by
  apply List.ext_getElem
  · rw [length_generate_correlated_data, length_generate_correlated_data, hlen]
  · intro i h1 h2
    rw [getElem_generate_correlated_data, getElem_generate_correlated_data]
    simp only [zero_mul, zero_add, hmean, hstdeq]

/-- Witness for C8 on the concrete references `[0, 2]` and `[2, 0]`, which
share length, mean and deviation but differ in shape. -/
theorem correlated_rho_zero_shape_independent_witness :
    ([0, 2] : List ℝ).length = ([2, 0] : List ℝ).length ∧
    np_mean [0, 2] = np_mean [2, 0] ∧ np_std [0, 2] = np_std [2, 0] ∧
    0 < np_std [0, 2] ∧
    (generate_correlated_data gauss0 st0 [0, 2] 0 1 1).1 =
      (generate_correlated_data gauss0 st0 [2, 0] 0 1 1).1 :=
  ⟨rfl, np_mean_pair.trans np_mean_pair_rev.symm,
    np_std_pair.trans np_std_pair_rev.symm,
    by rw [np_std_pair]; norm_num,
    correlated_rho_zero_shape_independent gauss0 st0 st0 [0, 2] [2, 0] 1 1
      rfl (np_mean_pair.trans np_mean_pair_rev.symm)
      (np_std_pair.trans np_std_pair_rev.symm)
      (by rw [np_std_pair]; norm_num)⟩

/-- Claim C9: the cyclical generator is total over all numeric parameters: it
has no validation branch, and a negative cycle length only reverses the
direction of phase advance in the sine argument; the call still returns one
sample per axis entry, with the stated closed form. -/
theorem cyclical_total_negative_cycle (gauss : ℕ → ℕ → ℝ) (st : RandState)
    (dates : List ℤ) (b a c s p : ℝ) (i : ℕ) (hi : i < dates.length) :
    ((generate_cyclical_data gauss st dates b a (-c) s p).1).length = dates.length ∧
    ((generate_cyclical_data gauss st dates b a (-c) s p).1).getD i 0 =
      b + a * Real.sin (p - 2 * Real.pi *
          (((dates.getD i 0 - dates.headI : ℤ) : ℝ) / 365.25) / c)
        + (-1 + 2 * (i : ℝ) / ((dates.length : ℝ) - 1)) + gauss 42 i * s := by
  refine ⟨length_generate_cyclical_data gauss st dates b a (-c) s p, ?_⟩
  have h : i < ((generate_cyclical_data gauss st dates b a (-c) s p).1).length := by
    rwa [length_generate_cyclical_data]
  rw [List.getD_eq_getElem _ 0 h, getElem_generate_cyclical_data, div_neg,
    neg_add_eq_sub]

/-- Witness for C9 at the concrete axis `[0, 31]`, index 1, cycle length
`-7`. -/
theorem cyclical_total_negative_cycle_witness :
    1 < ([0, 31] : List ℤ).length ∧
    (((generate_cyclical_data gauss0 st0 [0, 31] 9 3 (-7) 1 0).1).length
        = ([0, 31] : List ℤ).length ∧
      ((generate_cyclical_data gauss0 st0 [0, 31] 9 3 (-7) 1 0).1).getD 1 0 =
        9 + 3 * Real.sin (0 - 2 * Real.pi *
            (((([0, 31] : List ℤ).getD 1 0 - ([0, 31] : List ℤ).headI : ℤ) : ℝ) / 365.25) / 7)
          + (-1 + 2 * ((1 : ℕ) : ℝ) / ((([0, 31] : List ℤ).length : ℝ) - 1))
          + gauss0 42 1 * 1) :=
  ⟨by decide, cyclical_total_negative_cycle gauss0 st0 [0, 31] 9 3 7 1 0 1 (by decide)⟩

/-- Claim C10 (implicit): at the degenerate parameter point correlation 1,
base shift 0, amplitude ratio 1, the correlated generator returns the
reference series itself: the normalize-then-denormalize pipeline is the
identity once the noise weight vanishes. -/
theorem correlated_roundtrip_identity (gauss : ℕ → ℕ → ℝ) (st : RandState)
    (r : List ℝ) (hstd : 0 < np_std r) :
    (generate_correlated_data gauss st r 1 0 1).1 = r := by
  have hs : np_std r ≠ 0 := ne_of_gt hstd
  apply List.ext_getElem
  · rw [length_generate_correlated_data]
  · intro i h1 h2
    rw [getElem_generate_correlated_data, List.getD_eq_getElem r 0 h2]
    have hz : Real.sqrt (1 - (1 : ℝ) ^ 2) = 0 := by norm_num
    rw [hz]
    field_simp

/-- Witness for C10 at the concrete reference `[0, 2]`. -/
theorem correlated_roundtrip_identity_witness :
    0 < np_std [0, 2] ∧
    (generate_correlated_data gauss0 st0 [0, 2] 1 0 1).1 = [0, 2] :=
  ⟨by rw [np_std_pair]; norm_num,
    correlated_roundtrip_identity gauss0 st0 [0, 2] (by rw [np_std_pair]; norm_num)⟩

end PlotMacro
